import Mathlib

/-!
Verification of the discrete-invariant post-processing in
`examples/miller.py` (energetic_somersault).

The script computes two discrete physical invariants, total mechanical
energy and angular-momentum norm, along a sampled trajectory of
generalized coordinates, for four quadrature rules.  The multibody
dynamics engine (biorbd) is an external collaborator: its three
primitives (angular-momentum vector, kinetic energy, potential energy)
are modelled as an abstract structure `Model`.  Coordinate vectors are
lists of rationals; fallible computations (the unsupported-rule branch
and numpy's rejection of a negative array dimension) return `Option`.
-/

namespace Miller

/-- Generalized-coordinate vector: one column of the `q` array. -/
abbrev Vec := List ℚ

/-- Elementwise vector sum, `q1 + q2` on numpy arrays. -/
def vecAdd (a b : Vec) : Vec := List.zipWith (fun x y => x + y) a b

/-- Elementwise vector difference, `q2 - q1` on numpy arrays. -/
def vecSub (a b : Vec) : Vec := List.zipWith (fun x y => x - y) a b

/-- Scalar division of a vector, `v / c` on numpy arrays. -/
def vecDiv (a : Vec) (c : ℚ) : Vec := a.map (fun x => x / c)

/-- Euclidean norm, `np.linalg.norm`. -/
noncomputable def npNorm (v : Vec) : ℝ :=
  Real.sqrt (((v.map fun a => a * a).sum : ℚ) : ℝ)

/-- Modelled from the spec: `varint.enums.QuadratureRule` is imported by
`miller.py` but its definition is not under `src/`.  The spec's data model
lists the four supported members (midpoint, left-endpoint, right-endpoint,
trapezoidal); the evaluators' fallback branch handles "any other value",
represented here by the extra constructor `UNSUPPORTED`. -/
inductive QuadratureRule where
  | MIDPOINT
  | LEFT_APPROXIMATION
  | RIGHT_APPROXIMATION
  | TRAPEZOIDAL
  | UNSUPPORTED (tag : Nat)
deriving DecidableEq

/-- True on the four quadrature rules the evaluators implement. -/
def QuadratureRule.supported : QuadratureRule → Bool
  | .UNSUPPORTED _ => false
  | _ => true

/-- Abstract handle for the external dynamics engine (`biorbd.Model`):
only the three primitives the script calls. -/
structure Model where
  angularMomentum : Vec → Vec → Vec
  KineticEnergy : Vec → Vec → ℚ
  PotentialEnergy : Vec → ℚ

/-- `angular_momentum_i`: rule-dispatched representative coordinate `q`
(the unrecognized-rule branch raises, hence `none`), finite-difference
velocity `qdot = (q2 - q1) / time_step`, then the Euclidean norm of the
model's angular-momentum vector. -/
noncomputable def angular_momentum_i (m : Model) (q1 q2 : Vec) (time_step : ℚ)
    (discrete_approximation : QuadratureRule) : Option ℝ :=
  (match discrete_approximation with
    | .MIDPOINT => some (vecDiv (vecAdd q1 q2) 2)
    | .LEFT_APPROXIMATION => some q1
    | .RIGHT_APPROXIMATION => some q2
    | .TRAPEZOIDAL => some (vecDiv (vecAdd q1 q2) 2)
    | .UNSUPPORTED _ => none).map fun q =>
      npNorm (m.angularMomentum q (vecDiv (vecSub q2 q1) time_step))

/-- `discrete_total_energy_i`: same rule dispatch and finite-difference
velocity, returning kinetic plus potential energy. -/
def discrete_total_energy_i (m : Model) (q1 q2 : Vec) (time_step : ℚ)
    (discrete_approximation : QuadratureRule) : Option ℚ :=
  (match discrete_approximation with
    | .MIDPOINT => some (vecDiv (vecAdd q1 q2) 2)
    | .LEFT_APPROXIMATION => some q1
    | .RIGHT_APPROXIMATION => some q2
    | .TRAPEZOIDAL => some (vecDiv (vecAdd q1 q2) 2)
    | .UNSUPPORTED _ => none).map fun q =>
      m.KineticEnergy q (vecDiv (vecSub q2 q1) time_step) + m.PotentialEnergy q

/-- Collects a list of optional results, failing as soon as one entry
fails — the effect of an exception escaping the aggregation loop. -/
def collectOpt : List (Option α) → Option (List α)
  | [] => some []
  | none :: _ => none
  | some a :: rest => (collectOpt rest).map (fun l => a :: l)

/-- `discrete_angular_momentum`: one evaluator call per consecutive frame
pair `(q_i, q_{i+1})` with `dt = time[i+1] - time[i]`.  With zero frames
the source's `np.zeros((n_frames - 1, 1))` raises (negative dimension),
hence `none`. -/
noncomputable def discrete_angular_momentum (m : Model) (q : List Vec)
    (time : List ℚ) (discrete_approximation : QuadratureRule) : Option (List ℝ) :=
  if q.length = 0 then
    none
  else
    collectOpt ((List.range (q.length - 1)).map fun i =>
      angular_momentum_i m (q.getD i []) (q.getD (i + 1) [])
        (time.getD (i + 1) 0 - time.getD i 0) discrete_approximation)

/-- `delta_angular_momentum`: evaluator at the first frame pair with
`time[1] - time[0]`, at the last pair with `time[-2] - time[-1]` (the
source's reversed time delta), returning end minus start. -/
noncomputable def delta_angular_momentum (m : Model) (q : List Vec)
    (time : List ℚ) (discrete_approximation : QuadratureRule) : Option ℝ :=
  match angular_momentum_i m (q.getD 0 []) (q.getD 1 [])
          (time.getD 1 0 - time.getD 0 0) discrete_approximation,
        angular_momentum_i m (q.getD (q.length - 2) []) (q.getD (q.length - 1) [])
          (time.getD (time.length - 2) 0 - time.getD (time.length - 1) 0)
          discrete_approximation with
  | some s, some e => some (e - s)
  | _, _ => none

/-- `discrete_total_energy`: the energy aggregation loop, mirroring
`discrete_angular_momentum`. -/
def discrete_total_energy (m : Model) (q : List Vec) (time : List ℚ)
    (discrete_approximation : QuadratureRule) : Option (List ℚ) :=
  if q.length = 0 then
    none
  else
    collectOpt ((List.range (q.length - 1)).map fun i =>
      discrete_total_energy_i m (q.getD i []) (q.getD (i + 1) [])
        (time.getD (i + 1) 0 - time.getD i 0) discrete_approximation)

/-- `delta_total_energy`: energy drift, end interval computed with the
source's reversed time delta `time[-2] - time[-1]`. -/
def delta_total_energy (m : Model) (q : List Vec) (time : List ℚ)
    (discrete_approximation : QuadratureRule) : Option ℚ :=
  match discrete_total_energy_i m (q.getD 0 []) (q.getD 1 [])
          (time.getD 1 0 - time.getD 0 0) discrete_approximation,
        discrete_total_energy_i m (q.getD (q.length - 2) []) (q.getD (q.length - 1) [])
          (time.getD (time.length - 2) 0 - time.getD (time.length - 1) 0)
          discrete_approximation with
  | some s, some e => some (e - s)
  | _, _ => none

/-- Spec-side selector for the representative coordinate, following the
spec's selection table (midpoint or trapezoidal: the average; left: `q1`;
right: `q2`; otherwise: failure).  Compared against the evaluators'
inline dispatch. -/
def representative_coordinate : QuadratureRule → Vec → Vec → Option Vec
  | .MIDPOINT, q1, q2 => some (vecDiv (vecAdd q1 q2) 2)
  | .LEFT_APPROXIMATION, q1, _ => some q1
  | .RIGHT_APPROXIMATION, _, q2 => some q2
  | .TRAPEZOIDAL, q1, q2 => some (vecDiv (vecAdd q1 q2) 2)
  | .UNSUPPORTED _, _, _ => none

/-- Spec-side representative velocity, `(q2 - q1) / dt`, shared by all
four rules. -/
def representative_velocity (q1 q2 : Vec) (dt : ℚ) : Vec :=
  vecDiv (vecSub q2 q1) dt

/-- Concrete model whose energy is odd in the velocity: angular momentum
is the velocity itself, kinetic energy its first component, zero
potential. -/
def Mlin : Model :=
  ⟨fun _ qdot => qdot, fun _ qdot => qdot.getD 0 0, fun _ => 0⟩

/-- Concrete model with constant negative potential energy. -/
def Mneg : Model :=
  ⟨fun _ qdot => qdot, fun _ _ => 0, fun _ => -1⟩

/-- Concrete model mixing coordinate and velocity contributions. -/
def Mmix : Model :=
  ⟨fun q qdot => vecAdd q qdot,
   fun q qdot => q.getD 0 0 + qdot.getD 0 0,
   fun q => q.getD 0 0⟩

/-- The angular-momentum evaluator factors through the spec-side
representative-coordinate selector. -/
theorem angular_momentum_i_eq (m : Model) (q1 q2 : Vec) (dt : ℚ)
    (r : QuadratureRule) :
    angular_momentum_i m q1 q2 dt r =
      (representative_coordinate r q1 q2).map fun qh =>
        npNorm (m.angularMomentum qh (vecDiv (vecSub q2 q1) dt)) := by
  cases r <;> rfl

/-- The total-energy evaluator factors through the spec-side
representative-coordinate selector. -/
theorem discrete_total_energy_i_eq (m : Model) (q1 q2 : Vec) (dt : ℚ)
    (r : QuadratureRule) :
    discrete_total_energy_i m q1 q2 dt r =
      (representative_coordinate r q1 q2).map fun qh =>
        m.KineticEnergy qh (vecDiv (vecSub q2 q1) dt) + m.PotentialEnergy qh := by
  cases r <;> rfl

/-- C1: for every q1, q2, dt and both per-interval evaluators, the
representative coordinate is (q1 + q2)/2 under MIDPOINT and TRAPEZOIDAL
(so those two rules have identical representative coordinates and
identical evaluator outputs), q1 under LEFT_APPROXIMATION and q2 under
RIGHT_APPROXIMATION. -/
theorem C1_representative_coordinate_selection (m : Model) (q1 q2 : Vec) (dt : ℚ) :
    representative_coordinate .MIDPOINT q1 q2 = some (vecDiv (vecAdd q1 q2) 2) ∧
    representative_coordinate .TRAPEZOIDAL q1 q2 = some (vecDiv (vecAdd q1 q2) 2) ∧
    representative_coordinate .LEFT_APPROXIMATION q1 q2 = some q1 ∧
    representative_coordinate .RIGHT_APPROXIMATION q1 q2 = some q2 ∧
    (∀ r, angular_momentum_i m q1 q2 dt r =
      (representative_coordinate r q1 q2).map fun qh =>
        npNorm (m.angularMomentum qh (vecDiv (vecSub q2 q1) dt))) ∧
    (∀ r, discrete_total_energy_i m q1 q2 dt r =
      (representative_coordinate r q1 q2).map fun qh =>
        m.KineticEnergy qh (vecDiv (vecSub q2 q1) dt) + m.PotentialEnergy qh) ∧
    angular_momentum_i m q1 q2 dt .MIDPOINT =
      angular_momentum_i m q1 q2 dt .TRAPEZOIDAL ∧
    discrete_total_energy_i m q1 q2 dt .MIDPOINT =
      discrete_total_energy_i m q1 q2 dt .TRAPEZOIDAL :=
  ⟨rfl, rfl, rfl, rfl, angular_momentum_i_eq m q1 q2 dt,
   discrete_total_energy_i_eq m q1 q2 dt, rfl, rfl⟩

/-- C2: a single representative velocity (q2 - q1)/dt is shared by both
evaluators under every rule; only the representative-coordinate
selection depends on the rule. -/
theorem C2_representative_velocity_uniform (m : Model) (q1 q2 : Vec) (dt : ℚ) :
    ∃ qd : Vec, qd = representative_velocity q1 q2 dt ∧
      qd = vecDiv (vecSub q2 q1) dt ∧
      (∀ r, angular_momentum_i m q1 q2 dt r =
        (representative_coordinate r q1 q2).map fun qh =>
          npNorm (m.angularMomentum qh qd)) ∧
      (∀ r, discrete_total_energy_i m q1 q2 dt r =
        (representative_coordinate r q1 q2).map fun qh =>
          m.KineticEnergy qh qd + m.PotentialEnergy qh) :=
  ⟨vecDiv (vecSub q2 q1) dt, rfl, rfl,
   angular_momentum_i_eq m q1 q2 dt, discrete_total_energy_i_eq m q1 q2 dt⟩

/-- C5: the total-energy evaluator returns kinetic energy at (q̂, q̇)
plus potential energy at q̂ alone, and the angular-momentum evaluator
returns the Euclidean norm of the model's angular-momentum vector at
(q̂, q̇); both are plain functions of their inputs and the model. -/
theorem C5_invariant_outputs (m : Model) (q1 q2 : Vec) (dt : ℚ)
    (r : QuadratureRule) :
    discrete_total_energy_i m q1 q2 dt r =
      (representative_coordinate r q1 q2).map (fun qh =>
        m.KineticEnergy qh (representative_velocity q1 q2 dt) +
          m.PotentialEnergy qh) ∧
    angular_momentum_i m q1 q2 dt r =
      (representative_coordinate r q1 q2).map (fun qh =>
        npNorm (m.angularMomentum qh (representative_velocity q1 q2 dt))) :=
  ⟨discrete_total_energy_i_eq m q1 q2 dt r, angular_momentum_i_eq m q1 q2 dt r⟩

/-- C6: every unsupported rule value makes both evaluators fail with no
result, and each of the four supported values yields a result — the
evaluators succeed exactly on supported rules. -/
theorem C6_unsupported_rule_error (m : Model) (q1 q2 : Vec) (dt : ℚ) :
    (∀ n, angular_momentum_i m q1 q2 dt (.UNSUPPORTED n) = none ∧
          discrete_total_energy_i m q1 q2 dt (.UNSUPPORTED n) = none) ∧
    (∀ r, (angular_momentum_i m q1 q2 dt r).isSome = r.supported ∧
          (discrete_total_energy_i m q1 q2 dt r).isSome = r.supported) := by
  refine ⟨fun n => ⟨rfl, rfl⟩, fun r => ?_⟩
  cases r <;> exact ⟨rfl, rfl⟩

/-- Splitting a successful collection at its head. -/
theorem collectOpt_cons_some (o : Option α) (rest : List (Option α)) (l : List α)
    (h : collectOpt (o :: rest) = some l) :
    ∃ a l2, o = some a ∧ l = a :: l2 ∧ collectOpt rest = some l2 := by
  cases o with
  | none => exact absurd h (by simp [collectOpt])
  | some a =>
    simp only [collectOpt] at h
    rw [Option.map_eq_some'] at h
    obtain ⟨l2, h2, hl⟩ := h
    exact ⟨a, l2, rfl, hl.symm, h2⟩

/-- Collecting entries that are all given as successes. -/
theorem collectOpt_map_some (g : ℕ → α) (f : ℕ → Option α) :
    ∀ l : List ℕ, (∀ i ∈ l, f i = some (g i)) →
      collectOpt (l.map f) = some (l.map g) := by
  intro l
  induction l with
  | nil => intro _; rfl
  | cons a t ih =>
    intro h
    have ha : f a = some (g a) := h a (List.mem_cons_self a t)
    have ht : ∀ i ∈ t, f i = some (g i) := fun i hi => h i (List.mem_cons_of_mem a hi)
    simp only [List.map_cons, ha, collectOpt, ih ht, Option.map_some']

/-- Every member of a successful collection occurs among the inputs. -/
theorem collectOpt_mem : ∀ (ol : List (Option α)) (l : List α),
    collectOpt ol = some l → ∀ x ∈ l, some x ∈ ol := by
  intro ol
  induction ol with
  | nil =>
    intro l hl x hx
    simp only [collectOpt, Option.some.injEq] at hl
    rw [← hl] at hx
    exact absurd hx (by simp)
  | cons o rest ih =>
    intro l hl x hx
    obtain ⟨a, l2, ho, hcons, hrest⟩ := collectOpt_cons_some o rest l hl
    rw [hcons] at hx
    rcases List.mem_cons.mp hx with h | h
    · rw [ho, h]; exact List.mem_cons_self _ _
    · exact List.mem_cons_of_mem _ (ih l2 hrest x h)

/-- Value carried by the energy evaluator on a supported rule. -/
def energyVal (m : Model) (q1 q2 : Vec) (dt : ℚ) (r : QuadratureRule) : ℚ :=
  (discrete_total_energy_i m q1 q2 dt r).getD 0

/-- Value carried by the angular-momentum evaluator on a supported rule. -/
noncomputable def amVal (m : Model) (q1 q2 : Vec) (dt : ℚ) (r : QuadratureRule) : ℝ :=
  (angular_momentum_i m q1 q2 dt r).getD 0

/-- On a supported rule the energy evaluator succeeds with `energyVal`. -/
theorem discrete_total_energy_i_supported_eq (m : Model) (q1 q2 : Vec) (dt : ℚ)
    (r : QuadratureRule) (hr : r.supported = true) :
    discrete_total_energy_i m q1 q2 dt r = some (energyVal m q1 q2 dt r) := by
  cases r <;> first
    | rfl
    | simp [QuadratureRule.supported] at hr

/-- On a supported rule the angular-momentum evaluator succeeds with `amVal`. -/
theorem angular_momentum_i_supported_eq (m : Model) (q1 q2 : Vec) (dt : ℚ)
    (r : QuadratureRule) (hr : r.supported = true) :
    angular_momentum_i m q1 q2 dt r = some (amVal m q1 q2 dt r) := by
  cases r <;> first
    | rfl
    | simp [QuadratureRule.supported] at hr

/-- Reading one entry of a mapped range list. -/
theorem range_map_getD (g : ℕ → α) (n i : ℕ) (h : i < n) (d : α) :
    ((List.range n).map g).getD i d = g i := by
  rw [List.getD_eq_getElem?_getD, List.getElem?_map, List.getElem?_range h]
  rfl

/-- C4: on a trajectory of N ≥ 2 samples with a supported rule, both
aggregators succeed with exactly N - 1 interval values, the value at
index i being the per-interval evaluator at (q_i, q_{i+1}) with
dt = t_{i+1} - t_i, in input index order. -/
theorem C4_aggregator_shape (m : Model) (q : List Vec) (time : List ℚ)
    (r : QuadratureRule) (hr : r.supported = true) (hq : 2 ≤ q.length) :
    ∃ lE lA,
      discrete_total_energy m q time r = some lE ∧
      discrete_angular_momentum m q time r = some lA ∧
      lE.length = q.length - 1 ∧ lA.length = q.length - 1 ∧
      (∀ i, i < q.length - 1 → some (lE.getD i 0) =
        discrete_total_energy_i m (q.getD i []) (q.getD (i + 1) [])
          (time.getD (i + 1) 0 - time.getD i 0) r) ∧
      (∀ i, i < q.length - 1 → some (lA.getD i 0) =
        angular_momentum_i m (q.getD i []) (q.getD (i + 1) [])
          (time.getD (i + 1) 0 - time.getD i 0) r) := by
  refine ⟨(List.range (q.length - 1)).map (fun i =>
            energyVal m (q.getD i []) (q.getD (i + 1) [])
              (time.getD (i + 1) 0 - time.getD i 0) r),
          (List.range (q.length - 1)).map (fun i =>
            amVal m (q.getD i []) (q.getD (i + 1) [])
              (time.getD (i + 1) 0 - time.getD i 0) r),
          ?_, ?_, by simp, by simp, ?_, ?_⟩
  · unfold discrete_total_energy
    rw [if_neg (by omega)]
    exact collectOpt_map_some _ _ _ (fun i _ =>
      discrete_total_energy_i_supported_eq m _ _ _ r hr)
  · unfold discrete_angular_momentum
    rw [if_neg (by omega)]
    exact collectOpt_map_some _ _ _ (fun i _ =>
      angular_momentum_i_supported_eq m _ _ _ r hr)
  · intro i hi
    rw [range_map_getD _ _ _ hi]
    exact (discrete_total_energy_i_supported_eq m _ _ _ r hr).symm
  · intro i hi
    rw [range_map_getD _ _ _ hi]
    exact (angular_momentum_i_supported_eq m _ _ _ r hr).symm

/-- Witness for C4 at a concrete three-sample trajectory. -/
theorem C4_aggregator_shape_witness :
    (QuadratureRule.supported .LEFT_APPROXIMATION = true) ∧
    (2 ≤ ([[(0 : ℚ)], [1], [3]] : List Vec).length) ∧
    (∃ lE lA,
      discrete_total_energy Mmix [[(0 : ℚ)], [1], [3]] [0, 1, 2]
        .LEFT_APPROXIMATION = some lE ∧
      discrete_angular_momentum Mmix [[(0 : ℚ)], [1], [3]] [0, 1, 2]
        .LEFT_APPROXIMATION = some lA ∧
      lE.length = ([[(0 : ℚ)], [1], [3]] : List Vec).length - 1 ∧
      lA.length = ([[(0 : ℚ)], [1], [3]] : List Vec).length - 1 ∧
      (∀ i, i < ([[(0 : ℚ)], [1], [3]] : List Vec).length - 1 →
        some (lE.getD i 0) =
          discrete_total_energy_i Mmix
            (([[(0 : ℚ)], [1], [3]] : List Vec).getD i [])
            (([[(0 : ℚ)], [1], [3]] : List Vec).getD (i + 1) [])
            (([0, 1, 2] : List ℚ).getD (i + 1) 0 - ([0, 1, 2] : List ℚ).getD i 0)
            .LEFT_APPROXIMATION) ∧
      (∀ i, i < ([[(0 : ℚ)], [1], [3]] : List Vec).length - 1 →
        some (lA.getD i 0) =
          angular_momentum_i Mmix
            (([[(0 : ℚ)], [1], [3]] : List Vec).getD i [])
            (([[(0 : ℚ)], [1], [3]] : List Vec).getD (i + 1) [])
            (([0, 1, 2] : List ℚ).getD (i + 1) 0 - ([0, 1, 2] : List ℚ).getD i 0)
            .LEFT_APPROXIMATION)) :=
  ⟨rfl, by decide,
   C4_aggregator_shape Mmix [[(0 : ℚ)], [1], [3]] [0, 1, 2]
     .LEFT_APPROXIMATION rfl (by decide)⟩

/-- C7 counterexample: on the empty trajectory (N = 0) the aggregator
does not return an empty sequence — the output-array allocation fails
(`np.zeros((-1, 1))`), so the result is an error, not `some []`. -/
theorem C7_counterexample :
    discrete_angular_momentum Mneg ([] : List Vec) ([] : List ℚ)
      .TRAPEZOIDAL ≠ some [] := by
  simp [discrete_angular_momentum]

/-- C7 (amended): a 1-sample trajectory yields an empty result from both
aggregators, a 0-sample trajectory yields an error, and in either case
the result does not depend on the model or the time samples — the
per-interval evaluator is never invoked. -/
theorem C7_small_trajectory (m m2 : Model) (q : List Vec) (time time2 : List ℚ)
    (r : QuadratureRule) (h : q.length ≤ 1) :
    (q.length = 1 →
       discrete_angular_momentum m q time r = some [] ∧
       discrete_total_energy m q time r = some []) ∧
    (q.length = 0 →
       discrete_angular_momentum m q time r = none ∧
       discrete_total_energy m q time r = none) ∧
    discrete_angular_momentum m q time r = discrete_angular_momentum m2 q time2 r ∧
    discrete_total_energy m q time r = discrete_total_energy m2 q time2 r := by
  match q, h with
  | [], _ => exact ⟨by simp, fun _ => ⟨rfl, rfl⟩, rfl, rfl⟩
  | [v], _ => exact ⟨fun _ => ⟨rfl, rfl⟩, by simp, rfl, rfl⟩

/-- Witness for C7 at a concrete one-sample trajectory. -/
theorem C7_small_trajectory_witness :
    (([[(5 : ℚ)]] : List Vec).length ≤ 1) ∧
    ((([[(5 : ℚ)]] : List Vec).length = 1 →
        discrete_angular_momentum Mlin [[(5 : ℚ)]] [3] .MIDPOINT = some [] ∧
        discrete_total_energy Mlin [[(5 : ℚ)]] [3] .MIDPOINT = some []) ∧
     (([[(5 : ℚ)]] : List Vec).length = 0 →
        discrete_angular_momentum Mlin [[(5 : ℚ)]] [3] .MIDPOINT = none ∧
        discrete_total_energy Mlin [[(5 : ℚ)]] [3] .MIDPOINT = none) ∧
     discrete_angular_momentum Mlin [[(5 : ℚ)]] [3] .MIDPOINT =
       discrete_angular_momentum Mmix [[(5 : ℚ)]] [] .MIDPOINT ∧
     discrete_total_energy Mlin [[(5 : ℚ)]] [3] .MIDPOINT =
       discrete_total_energy Mmix [[(5 : ℚ)]] [] .MIDPOINT) :=
  ⟨by decide, C7_small_trajectory Mlin Mmix [[(5 : ℚ)]] [3] [] .MIDPOINT (by decide)⟩

/-- C10: every interval sample produced by the angular-momentum
aggregator is nonnegative (each is a Euclidean norm), for any model,
trajectory, time samples and rule; by contrast the per-interval total
energy can be negative. -/
theorem C10_angular_momentum_nonneg :
    (∀ (m : Model) (q : List Vec) (time : List ℚ) (r : QuadratureRule)
        (l : List ℝ), discrete_angular_momentum m q time r = some l →
        ∀ x ∈ l, 0 ≤ x) ∧
    (∃ (m : Model) (q : List Vec) (time : List ℚ) (r : QuadratureRule)
        (l : List ℚ) (x : ℚ),
        discrete_total_energy m q time r = some l ∧ x ∈ l ∧ x < 0) := by
  constructor
  · intro m q time r l hl x hx
    unfold discrete_angular_momentum at hl
    by_cases h0 : q.length = 0
    · rw [if_pos h0] at hl
      exact absurd hl (by simp)
    · rw [if_neg h0] at hl
      have hmem := collectOpt_mem _ _ hl x hx
      rw [List.mem_map] at hmem
      obtain ⟨i, _, hi⟩ := hmem
      rw [angular_momentum_i_eq] at hi
      rcases ho : representative_coordinate r (q.getD i []) (q.getD (i + 1) [])
        with _ | qh
      · rw [ho] at hi
        exact absurd hi (by simp)
      · rw [ho] at hi
        simp only [Option.map_some', Option.some.injEq] at hi
        rw [← hi]
        exact Real.sqrt_nonneg _
  · refine ⟨Mneg, [[0], [0]], [0, 1], .TRAPEZOIDAL, [-1], -1, ?_, by simp, by norm_num⟩
    norm_num [discrete_total_energy, discrete_total_energy_i, Mneg, collectOpt,
      List.range_succ, vecAdd, vecSub, vecDiv]

/-- Witness for C10: the single interval sample of a concrete two-sample
run is nonnegative. -/
theorem C10_angular_momentum_nonneg_witness :
    0 ≤ npNorm (vecDiv (vecSub [(1 : ℚ)] [0]) (1 - 0)) :=
  C10_angular_momentum_nonneg.1 Mneg [[(0 : ℚ)], [1]] [0, 1] .TRAPEZOIDAL
    [npNorm (vecDiv (vecSub [(1 : ℚ)] [0]) (1 - 0))] rfl _ (by simp)

/-- First element of a successful energy aggregation: the evaluator at
the first frame pair with the forward time step. -/
theorem discrete_total_energy_head (m : Model) (q : List Vec) (time : List ℚ)
    (r : QuadratureRule) (hq : 2 ≤ q.length) (l : List ℚ)
    (h : discrete_total_energy m q time r = some l) :
    discrete_total_energy_i m (q.getD 0 []) (q.getD 1 [])
      (time.getD 1 0 - time.getD 0 0) r = some (l.getD 0 0) := by
  unfold discrete_total_energy at h
  rw [if_neg (by omega)] at h
  obtain ⟨k, hk⟩ : ∃ k, q.length - 1 = k + 1 := ⟨q.length - 2, by omega⟩
  rw [hk, List.range_succ_eq_map, List.map_cons] at h
  obtain ⟨e, l2, ho, hl, _⟩ := collectOpt_cons_some _ _ _ h
  rw [hl]
  simpa using ho

/-- First element of a successful angular-momentum aggregation. -/
theorem discrete_angular_momentum_head (m : Model) (q : List Vec) (time : List ℚ)
    (r : QuadratureRule) (hq : 2 ≤ q.length) (l : List ℝ)
    (h : discrete_angular_momentum m q time r = some l) :
    angular_momentum_i m (q.getD 0 []) (q.getD 1 [])
      (time.getD 1 0 - time.getD 0 0) r = some (l.getD 0 0) := by
  unfold discrete_angular_momentum at h
  rw [if_neg (by omega)] at h
  obtain ⟨k, hk⟩ : ∃ k, q.length - 1 = k + 1 := ⟨q.length - 2, by omega⟩
  rw [hk, List.range_succ_eq_map, List.map_cons] at h
  obtain ⟨e, l2, ho, hl, _⟩ := collectOpt_cons_some _ _ _ h
  rw [hl]
  simpa using ho

/-- C3 counterexample: with the model whose kinetic energy is the first
velocity component, the code's drift at q = [[0],[2]], t = [0,1] is -4,
while the claim's formula (forward time step at the last interval, which
here coincides with the first) predicts 2 - 2 = 0. -/
theorem C3_counterexample :
    delta_total_energy Mlin [[(0 : ℚ)], [2]] [0, 1] .TRAPEZOIDAL = some (-4) ∧
    discrete_total_energy_i Mlin [(0 : ℚ)] [2] (1 - 0) .TRAPEZOIDAL = some 2 ∧
    ¬ ((2 : ℚ) - 2 = -4) := by
  refine ⟨?_, ?_, by norm_num⟩
  · norm_num [delta_total_energy, discrete_total_energy_i, Mlin, vecAdd, vecSub, vecDiv]
  · norm_num [discrete_total_energy_i, Mlin, vecAdd, vecSub, vecDiv]

/-- C3 (amended): the drift equals the per-interval evaluator at the last
frame pair taken with the source's reversed time delta
t_{N-2} - t_{N-1} minus the first element of the aggregated sequence
(the evaluator at (q_0, q_1) with dt = t_1 - t_0), for both invariants
and the same rule at both endpoints. -/
theorem C3_drift_vs_aggregate (m : Model) (q : List Vec) (time : List ℚ)
    (r : QuadratureRule) (hr : r.supported = true) (hq : 2 ≤ q.length)
    (lE : List ℚ) (lA : List ℝ)
    (hE : discrete_total_energy m q time r = some lE)
    (hA : discrete_angular_momentum m q time r = some lA) :
    delta_total_energy m q time r =
      (discrete_total_energy_i m (q.getD (q.length - 2) []) (q.getD (q.length - 1) [])
        (time.getD (time.length - 2) 0 - time.getD (time.length - 1) 0) r).map
        (fun e => e - lE.getD 0 0) ∧
    delta_angular_momentum m q time r =
      (angular_momentum_i m (q.getD (q.length - 2) []) (q.getD (q.length - 1) [])
        (time.getD (time.length - 2) 0 - time.getD (time.length - 1) 0) r).map
        (fun a => a - lA.getD 0 0) := by
  constructor
  · have hstart := discrete_total_energy_head m q time r hq lE hE
    have hend := discrete_total_energy_i_supported_eq m
      (q.getD (q.length - 2) []) (q.getD (q.length - 1) [])
      (time.getD (time.length - 2) 0 - time.getD (time.length - 1) 0) r hr
    unfold delta_total_energy
    rw [hstart, hend]
    rfl
  · have hstart := discrete_angular_momentum_head m q time r hq lA hA
    have hend := angular_momentum_i_supported_eq m
      (q.getD (q.length - 2) []) (q.getD (q.length - 1) [])
      (time.getD (time.length - 2) 0 - time.getD (time.length - 1) 0) r hr
    unfold delta_angular_momentum
    rw [hstart, hend]
    rfl

/-- Witness for C3 at a concrete two-sample trajectory. -/
theorem C3_drift_vs_aggregate_witness :
    (QuadratureRule.supported .TRAPEZOIDAL = true) ∧
    (2 ≤ ([[(0 : ℚ)], [2]] : List Vec).length) ∧
    discrete_total_energy Mlin [[(0 : ℚ)], [2]] [0, 1] .TRAPEZOIDAL = some [2] ∧
    discrete_angular_momentum Mlin [[(0 : ℚ)], [2]] [0, 1] .TRAPEZOIDAL =
      some [npNorm (vecDiv (vecSub [2] [0]) (1 - 0))] ∧
    delta_total_energy Mlin [[(0 : ℚ)], [2]] [0, 1] .TRAPEZOIDAL =
      (discrete_total_energy_i Mlin [0] [2] (0 - 1) .TRAPEZOIDAL).map
        (fun e => e - 2) ∧
    delta_angular_momentum Mlin [[(0 : ℚ)], [2]] [0, 1] .TRAPEZOIDAL =
      (angular_momentum_i Mlin [0] [2] (0 - 1) .TRAPEZOIDAL).map
        (fun a => a - npNorm (vecDiv (vecSub [2] [0]) (1 - 0))) :=
  ⟨rfl, by decide,
   by norm_num [discrete_total_energy, discrete_total_energy_i, Mlin, collectOpt,
     List.range_succ, vecAdd, vecSub, vecDiv],
   rfl,
   (C3_drift_vs_aggregate Mlin [[(0 : ℚ)], [2]] [0, 1] .TRAPEZOIDAL rfl (by decide)
     [2] [npNorm (vecDiv (vecSub [2] [0]) (1 - 0))]
     (by norm_num [discrete_total_energy, discrete_total_energy_i, Mlin, collectOpt,
       List.range_succ, vecAdd, vecSub, vecDiv]) rfl).1,
   (C3_drift_vs_aggregate Mlin [[(0 : ℚ)], [2]] [0, 1] .TRAPEZOIDAL rfl (by decide)
     [2] [npNorm (vecDiv (vecSub [2] [0]) (1 - 0))]
     (by norm_num [discrete_total_energy, discrete_total_energy_i, Mlin, collectOpt,
       List.range_succ, vecAdd, vecSub, vecDiv]) rfl).2⟩

/-- C8 counterexample: on a two-sample trajectory the aggregator does
produce a single interval value, but the drift is not that value minus
itself: with the odd-in-velocity model it is -3, not 0, because the end
interval is evaluated with the reversed time delta. -/
theorem C8_counterexample :
    discrete_total_energy Mlin [[(0 : ℚ)], [3]] [0, 2] .MIDPOINT = some [3 / 2] ∧
    delta_total_energy Mlin [[(0 : ℚ)], [3]] [0, 2] .MIDPOINT = some (-3) ∧
    ¬ ((-3 : ℚ) = 0) := by
  refine ⟨?_, ?_, by norm_num⟩
  · norm_num [discrete_total_energy, discrete_total_energy_i, Mlin, collectOpt,
      List.range_succ, vecAdd, vecSub, vecDiv]
  · norm_num [delta_total_energy, discrete_total_energy_i, Mlin, vecAdd, vecSub, vecDiv]

/-- C8 (amended): on a trajectory with exactly 2 samples each aggregator
returns exactly one interval value, and each drift function returns the
evaluator at the same pair (q_0, q_1) but with the reversed time delta
t_0 - t_1, minus that single value — zero only when the invariant is
insensitive to the velocity's sign. -/
theorem C8_two_sample_drift (m : Model) (q : List Vec) (time : List ℚ)
    (r : QuadratureRule) (hr : r.supported = true)
    (hq : q.length = 2) (ht : time.length = 2) :
    ∃ e a, discrete_total_energy m q time r = some [e] ∧
      discrete_angular_momentum m q time r = some [a] ∧
      delta_total_energy m q time r =
        (discrete_total_energy_i m (q.getD 0 []) (q.getD 1 [])
          (time.getD 0 0 - time.getD 1 0) r).map (fun v => v - e) ∧
      delta_angular_momentum m q time r =
        (angular_momentum_i m (q.getD 0 []) (q.getD 1 [])
          (time.getD 0 0 - time.getD 1 0) r).map (fun v => v - a) := by
  obtain ⟨q0, q1, rfl⟩ := List.length_eq_two.mp hq
  obtain ⟨t0, t1, rfl⟩ := List.length_eq_two.mp ht
  cases r with
  | UNSUPPORTED n => simp [QuadratureRule.supported] at hr
  | MIDPOINT => exact ⟨_, _, rfl, rfl, rfl, rfl⟩
  | LEFT_APPROXIMATION => exact ⟨_, _, rfl, rfl, rfl, rfl⟩
  | RIGHT_APPROXIMATION => exact ⟨_, _, rfl, rfl, rfl, rfl⟩
  | TRAPEZOIDAL => exact ⟨_, _, rfl, rfl, rfl, rfl⟩

/-- Witness for C8 at a concrete two-sample trajectory. -/
theorem C8_two_sample_drift_witness :
    (QuadratureRule.supported .RIGHT_APPROXIMATION = true) ∧
    (([[(1 : ℚ)], [4]] : List Vec).length = 2) ∧
    (([0, 1] : List ℚ).length = 2) ∧
    (∃ e a,
      discrete_total_energy Mmix [[(1 : ℚ)], [4]] [0, 1]
        .RIGHT_APPROXIMATION = some [e] ∧
      discrete_angular_momentum Mmix [[(1 : ℚ)], [4]] [0, 1]
        .RIGHT_APPROXIMATION = some [a] ∧
      delta_total_energy Mmix [[(1 : ℚ)], [4]] [0, 1] .RIGHT_APPROXIMATION =
        (discrete_total_energy_i Mmix [1] [4] (0 - 1)
          .RIGHT_APPROXIMATION).map (fun v => v - e) ∧
      delta_angular_momentum Mmix [[(1 : ℚ)], [4]] [0, 1] .RIGHT_APPROXIMATION =
        (angular_momentum_i Mmix [1] [4] (0 - 1)
          .RIGHT_APPROXIMATION).map (fun v => v - a)) :=
  ⟨rfl, by decide, by decide,
   C8_two_sample_drift Mmix [[(1 : ℚ)], [4]] [0, 1] .RIGHT_APPROXIMATION rfl
     (by decide) (by decide)⟩

end Miller
